import Mathlib

/-!
Verification development for the persona conversation pipeline of
`backend/main.py` (startup-idea interview simulator).

The Python source is shallowly embedded: pure helpers become Lean
functions over `String`/`List`; external calls (Whisper transcription,
Groq/OpenAI completions, TTS synthesis) are modelled by `Except`-valued
fields of an explicit environment record, since their results — not the
prompt texts — are the only thing that affects control flow.  Python's
builtin `hash` of a string (SipHash keyed by a per-process random seed,
`PYTHONHASHSEED`) is modelled by an explicit function parameter
`pyHash : String → Nat`; the code's `hash(m) % n` becomes
`pyHash m % n`.
-/

namespace Step1

/-- Model of Python's substring test `pat in s` restricted to the chars of
`pat` being a prefix of `s`. -/
def charsStartWith : List Char → List Char → Bool
  | [], _ => true
  | _ :: _, [] => false
  | a :: as, b :: bs => a == b && charsStartWith as bs

/-- Model of Python's substring test `pat in s` over char lists: `pat`
occurs contiguously in `s` (the empty pattern always occurs). -/
def charsContain (pat : List Char) : List Char → Bool
  | [] => charsStartWith pat []
  | c :: cs => charsStartWith pat (c :: cs) || charsContain pat cs

/-- Model of Python's `pat in s` on strings. -/
def pyIn (pat s : String) : Bool :=
  charsContain pat.data s.data

/-- Model of Python's `str.lower()` (ASCII case folding, which covers every
string literal appearing in the source). -/
def pyLower (s : String) : String :=
  ⟨s.data.map Char.toLower⟩

/-- Helper for `pySplitLen`: counts maximal non-whitespace runs; the flag
records whether the previous char was inside a word. -/
def wordCountAux : List Char → Bool → Nat
  | [], _ => 0
  | c :: cs, inWord =>
    if c.isWhitespace then wordCountAux cs false
    else (if inWord then 0 else 1) + wordCountAux cs true

/-- Model of Python's `len(s.split())`: number of whitespace-separated
words, ignoring leading/trailing/repeated whitespace. -/
def pySplitLen (s : String) : Nat :=
  wordCountAux s.data false

/-- `Persona` pydantic model of `backend/main.py` (demographics already
normalised to a single string by its validator). -/
structure Persona where
  name : String
  role : String
  demographics : String
  pain_points : List String
  goals : List String
  personality_traits : List String
  communication_style : Option String
deriving Repr, DecidableEq

/-! ## Question classifier (`voice_interview_realtime`, lines 1430–1459) -/

/-- The fixed leading-phrase list of `is_leading_question` in
`voice_interview_realtime`. -/
def leading_phrases : List String :=
  ["don't you think", "wouldn't you", "isn't it true", "surely you", "obviously",
   "everyone knows", "it's clear that", "you must", "you probably", "wouldn't you agree",
   "don't you agree", "isn't it obvious", "clearly you", "surely you must"]

/-- The fixed vague-phrase list of the classifier. -/
def vague_patterns : List String :=
  ["what do you think", "how do you feel", "what's your opinion"]

/-- The fixed good-behavioral-phrase list of the classifier. -/
def good_question_patterns : List String :=
  ["tell me about", "walk me through", "describe", "explain", "what happened",
   "how do you", "what's your process", "can you share", "what works", "what doesn't work"]

/-- `is_leading_question` of `voice_interview_realtime`: any leading phrase
occurs in the lower-cased utterance. -/
def is_leading_question (u : String) : Bool :=
  leading_phrases.any fun p => pyIn p (pyLower u)

/-- `is_vague_question` of `voice_interview_realtime`: set when the
utterance has fewer than 8 words and contains a vague phrase, then cleared
whenever a good-behavioral phrase occurs. -/
def is_vague_question (u : String) : Bool :=
  let base := decide (pySplitLen u < 8) && vague_patterns.any fun p => pyIn p (pyLower u)
  if good_question_patterns.any fun p => pyIn p (pyLower u) then false else base

/-- The `response_style` directive string computed by
`voice_interview_realtime`: leading wins, then vague, else normal. -/
def response_style (u : String) : String :=
  if is_leading_question u then
    "The founder asked a leading question. Be skeptical and push back. Don't just agree."
  else if is_vague_question u then
    "The founder asked a vague question. Give a short, non-committal answer or ask for specifics."
  else
    "The founder asked a reasonable question. You can engage normally but still be naturally cautious."

/-! ## Voice selector (`get_persona_voice`, lines 427–452) -/

/-- Female-associated name list of `get_persona_voice`. -/
def femaleNames : List String :=
  ["sarah", "emma", "maria", "jennifer", "lisa", "anna", "kate", "amy", "rachel", "jessica"]

/-- Male-associated name list of `get_persona_voice`. -/
def maleNames : List String :=
  ["marcus", "john", "mike", "david", "alex", "chris", "james", "robert", "michael", "daniel"]

/-- `get_persona_voice`: female-name branch, then male-name branch, else the
default voice "nova"; there is no style-only branch. -/
def get_persona_voice (persona_name : String) (communication_style : String) : String :=
  let name_lower := pyLower persona_name
  let style_lower := pyLower communication_style
  if femaleNames.any (fun n => pyIn n name_lower) then
    if pyIn "professional" style_lower || pyIn "formal" style_lower then "shimmer"
    else if pyIn "creative" style_lower || pyIn "friendly" style_lower then "nova"
    else "alloy"
  else if maleNames.any (fun n => pyIn n name_lower) then
    if pyIn "technical" style_lower || pyIn "analytical" style_lower then "echo"
    else if pyIn "casual" style_lower || pyIn "friendly" style_lower then "fable"
    else "onyx"
  else "nova"

/-! ## Deterministic offline simulator
(`generate_offline_persona_response`, lines 1542–1655) -/

/-- Leading-phrase list of the simulator's first check (a strict subset of
the classifier's list). -/
def sim_leading_phrases : List String :=
  ["don't you think", "wouldn't you", "isn't it true", "surely you"]

/-- Vague-phrase list of the simulator's second check. -/
def sim_vague_phrases : List String :=
  ["what do you think", "how do you feel", "tell me about"]

/-- Greeting word list of the simulator. -/
def greeting_words : List String := ["hello", "hi", "hey", "start"]

/-- Pain/problem word list of the simulator. -/
def pain_words : List String := ["problem", "challenge", "pain", "frustration"]

/-- Solution/product word list of the simulator. -/
def solution_words : List String := ["solution", "product", "feature", "app", "platform"]

/-- Pricing word list of the simulator. -/
def pricing_words : List String := ["price", "cost", "pay", "money", "expensive"]

/-- Time/efficiency word list of the simulator. -/
def time_words : List String := ["time", "fast", "quick", "speed", "efficient"]

/-- Competition word list of the simulator. -/
def competition_words : List String := ["competitor", "alternative", "existing", "current"]

/-- The topic buckets of the simulator, one per branch of its `if`/`elif`
chain. -/
inductive Bucket where
  | leadingPushback
  | vagueClarify
  | greeting
  | painOrProblem
  | solutionOrProduct
  | pricing
  | timeOrEfficiency
  | competition
  | defaultBucket
deriving Repr, DecidableEq

/-- Which branch of `generate_offline_persona_response` fires, in the exact
textual order of the source: leading pushback first, then vague clarify,
then greeting, then the `elif` chain, else the default bucket. -/
def offline_bucket (u : String) : Bucket :=
  let ul := pyLower u
  if sim_leading_phrases.any (fun p => pyIn p ul) then Bucket.leadingPushback
  else if (sim_vague_phrases.any fun p => pyIn p ul) && decide (pySplitLen u < 8) then
    Bucket.vagueClarify
  else if greeting_words.any (fun w => pyIn w ul) then Bucket.greeting
  else if pain_words.any (fun w => pyIn w ul) then Bucket.painOrProblem
  else if solution_words.any (fun w => pyIn w ul) then Bucket.solutionOrProduct
  else if pricing_words.any (fun w => pyIn w ul) then Bucket.pricing
  else if time_words.any (fun w => pyIn w ul) then Bucket.timeOrEfficiency
  else if competition_words.any (fun w => pyIn w ul) then Bucket.competition
  else Bucket.defaultBucket

/-- The template list each bucket owns in the source.  The greeting bucket
interpolates `persona.name`; the pain bucket interpolates the first pain
point when one exists.  No template interpolates the persona's role: the
source computes `role = persona.role.lower()` but never uses it. -/
def offline_templates (b : Bucket) (persona : Persona) : List String :=
  match b with
  | Bucket.leadingPushback =>
    ["I mean, I'm not sure about that...",
     "Not necessarily, no.",
     "I guess it depends.",
     "That's not really how I see it.",
     "I'd need to know more specifics."]
  | Bucket.vagueClarify =>
    ["About what specifically?",
     "I mean, it's fine I guess.",
     "Can you be more specific?",
     "It depends on what you mean.",
     "I don't really have strong opinions on that."]
  | Bucket.greeting =>
    ["Hi. I'm " ++ persona.name ++ ". What's this about?",
     "Hey there. So what did you want to discuss?",
     "Hi. I don't have too much time, but what's up?",
     "Hello. You mentioned something about a startup idea?"]
  | Bucket.painOrProblem =>
    match persona.pain_points with
    | pain_point :: _ =>
      ["Yeah, I deal with " ++ pain_point ++ " sometimes. Why?",
       "I mean, " ++ pain_point ++ " can be annoying. What about it?",
       "Sure, " ++ pain_point ++ " is a thing. Are you trying to solve that or something?",
       "I guess " ++ pain_point ++ " comes up. What's your angle?"]
    | [] =>
      ["I mean, there are always challenges. What specifically?",
       "Sure, work has its problems. What are you getting at?",
       "I guess there are some pain points. Why do you ask?",
       "Yeah, things could be better. What's this about?"]
  | Bucket.solutionOrProduct =>
    ["Okay... what does it do exactly?",
     "I've heard that before. How is this different?",
     "Sounds like a lot of other things out there.",
     "What makes you think people need this?",
     "I mean, maybe. Depends on how it works."]
  | Bucket.pricing =>
    ["Depends what I'm getting for it.",
     "I'm not looking to spend money on random stuff.",
     "Price matters, but so does value. What's the value?",
     "I'd need to see if it's worth it first.",
     "How much are we talking?"]
  | Bucket.timeOrEfficiency =>
    ["Time is definitely important. How much time are we talking?",
     "I mean, faster is better I guess. But how?",
     "Sure, I don't like wasting time. What's your point?",
     "Efficiency is good, but I've heard promises before.",
     "Okay, but how do you actually make things faster?"]
  | Bucket.competition =>
    ["Yeah, I use a few different tools already.",
     "There are options out there. What makes yours special?",
     "I've got my current setup. Why would I switch?",
     "Sure, there are alternatives. So what?",
     "I mean, the market's pretty crowded already."]
  | Bucket.defaultBucket =>
    ["I'm not sure I follow. Can you explain?",
     "Okay... and?",
     "I guess. What's your point?",
     "That's interesting I suppose. Where are you going with this?",
     "I mean, maybe. I'd need to understand more.",
     "Not sure about that. Can you be more specific?",
     "I don't really know enough to say."]

/-- `generate_offline_persona_response`: pick the branch, then index the
branch's template list by `hash(user_message) % len(responses)`.  `pyHash`
stands for Python's builtin seed-dependent string hash. -/
def generate_offline_persona_response (pyHash : String → Nat) (user_message : String)
    (persona : Persona) : String :=
  let templates := offline_templates (offline_bucket user_message) persona
  templates.getD (pyHash user_message % templates.length) ""

/-! ## Real-time voice endpoint (`voice_interview_realtime`, lines 1358–1539) -/

/-- One item of `conversation_history` in a `VoiceInterviewRequest`
(a dict with `role` and `message` keys). -/
structure HistoryItem where
  role : String
  message : String
deriving Repr, DecidableEq

/-- `VoiceInterviewRequest` pydantic model. -/
structure VoiceInterviewRequest where
  persona : Persona
  audio_file : Option String
  conversation_history : List HistoryItem
deriving Repr, DecidableEq

/-- `VoiceInterviewResponse` pydantic model. -/
structure VoiceInterviewResponse where
  persona_response : String
  persona_audio_url : Option String
  transcribed_user_message : Option String
  suggested_questions : List String
  conversation_status : String
deriving Repr, DecidableEq

/-- Outcomes of the external services called by
`voice_interview_realtime`; `Except.error ()` stands for the call raising
(timeout, quota, HTTP error, missing key).  The prompt strings built by
the endpoint are passed to these services but never influence the
endpoint's own control flow, so they are not part of the model. -/
structure RealtimeEnv where
  whisper : Except Unit String
  groq : Except Unit String
  openai : Except Unit String
  tts : Except Unit String

/-- The fixed refusal-marker list the endpoint checks Groq's successful
output against. -/
def policy_phrases : List String :=
  ["cannot create", "cannot provide", "i cannot", "content policy",
   "inappropriate", "explicit content", "i cannot help", "against my programming"]

/-- The policy filter: some refusal marker occurs in the lower-cased
completion text. -/
def contains_policy_refusal (t : String) : Bool :=
  policy_phrases.any fun p => pyIn p (pyLower t)

/-- The loop over `reversed(request.conversation_history)` picking the
latest message whose role is `"user"`. -/
def last_user_message (hist : List HistoryItem) : Option String :=
  (hist.reverse.find? fun i => i.role == "user").map HistoryItem.message

/-- Transcript resolution of `voice_interview_realtime` after the
transcription step: an empty transcript falls back to the latest user
history message (`or "Hello"`), and failing that to a fixed greeting. -/
def resolve_transcript (t0 : String) (hist : List HistoryItem) : String :=
  let t1 :=
    if t0 == "" && !hist.isEmpty then
      match last_user_message hist with
      | some m => if m == "" then "Hello" else m
      | none => "Hello"
    else t0
  if t1 == "" then "Hello, I'd like to hear about your startup idea." else t1

/-- The completion chain of `voice_interview_realtime`: Groq first —
a successful Groq reply matching the policy filter is replaced by the
offline simulator — else OpenAI, whose successful reply is returned
without any policy check, else the offline simulator. -/
def chain_reply (env : RealtimeEnv) (pyHash : String → Nat) (persona : Persona)
    (transcript : String) : String :=
  match env.groq with
  | Except.ok r =>
    if contains_policy_refusal r then
      generate_offline_persona_response pyHash transcript persona
    else r
  | Except.error _ =>
    match env.openai with
    | Except.ok r => r
    | Except.error _ => generate_offline_persona_response pyHash transcript persona

/-- Python truthiness of the optional `audio_file` field as tested by
`if request.audio_file:` — the field is present and non-empty (`None` and
the empty string are both falsy). -/
def audio_present : Option String → Bool
  | none => false
  | some a => !(a == "")

/-- `voice_interview_realtime`: transcription runs only when
`request.audio_file` is truthy; a transcription failure short-circuits to
an apology unit; otherwise the chain reply is computed and TTS failure
only drops the audio field.  Every exit carries `conversation_status =
"ongoing"`. -/
def voice_interview_realtime (env : RealtimeEnv) (pyHash : String → Nat)
    (req : VoiceInterviewRequest) : VoiceInterviewResponse :=
  let step : String → VoiceInterviewResponse := fun t0 =>
    let transcript := resolve_transcript t0 req.conversation_history
    let reply := chain_reply env pyHash req.persona transcript
    let audio : Option String :=
      match env.tts with
      | Except.ok a => some ("data:audio/mp3;base64," ++ a)
      | Except.error _ => none
    { persona_response := reply
      persona_audio_url := audio
      transcribed_user_message := some transcript
      suggested_questions := []
      conversation_status := "ongoing" }
  if audio_present req.audio_file then
    match env.whisper with
    | Except.ok t => step t
    | Except.error _ =>
      { persona_response := "Sorry, I couldn't understand your audio. Could you try speaking again or check your microphone?"
        persona_audio_url := none
        transcribed_user_message := some ""
        suggested_questions := []
        conversation_status := "ongoing" }
  else step ""

/-! ## WebSocket session loop (`voice_stream_websocket`, lines 1197–1335) -/

instance {ε α : Type} [DecidableEq ε] [DecidableEq α] : DecidableEq (Except ε α) := fun x y =>
  match x, y with
  | Except.ok a, Except.ok b =>
    if h : a = b then isTrue (by rw [h]) else isFalse (by intro hh; cases hh; exact h rfl)
  | Except.ok _, Except.error _ => isFalse (by intro hh; cases hh)
  | Except.error _, Except.ok _ => isFalse (by intro hh; cases hh)
  | Except.error e, Except.error f =>
    if h : e = f then isTrue (by rw [h]) else isFalse (by intro hh; cases hh; exact h rfl)

/-- External-call outcomes for one audio chunk of the websocket loop.
The `groq` and `tts` outcomes are what those calls would return if
reached; in the source they are dead code, because the handler raises a
`KeyError` before them (see `demo_persona_history`). -/
structure WsUnitEnv where
  whisper : Except Unit String
  groq : Except Unit String
  tts : Except Unit String
deriving Repr, DecidableEq

/-- The keys of the `demo_persona` dict literal in
`voice_stream_websocket` (lines 1216–1224). -/
def demo_persona_keys : List String :=
  ["name", "role", "demographics", "pain_points", "goals", "personality_traits",
   "communication_style"]

/-- The subscript `demo_persona['conversation_history']` at line 1259: a
Python dict subscript raises `KeyError` when the key is absent, and the
literal defines no `conversation_history` key, so this access always
raises. -/
def demo_persona_history : Except Unit (List HistoryItem) :=
  if demo_persona_keys.contains "conversation_history" then Except.ok []
  else Except.error ()

/-- Inbound websocket messages: an audio chunk bundled with the outcomes
of the external calls its processing will make, the explicit end signal,
or any other message type (ignored by the loop). -/
inductive WsIn where
  | audioChunk (env : WsUnitEnv)
  | endConversation
  | otherMsg
deriving Repr, DecidableEq

/-- Outbound websocket messages (`voice_response` or `error`). -/
inductive WsOut where
  | voiceResponse (audio : String) (transcribed : String) (personaText : String)
  | errorOut (message : String)
deriving Repr, DecidableEq

/-- The inner `try` of one audio chunk, in source order: transcribe, then
subscript `demo_persona['conversation_history']` while building the
context, then generate with Groq, then synthesize; any raising step
aborts the unit with an error.  Because `demo_persona_history` always
raises, every chunk — even with successful transcription — aborts before
Groq, and the `voiceResponse` path is unreachable in the source. -/
def process_audio_chunk (e : WsUnitEnv) : Except Unit WsOut :=
  match e.whisper with
  | Except.error _ => Except.error ()
  | Except.ok t =>
    match demo_persona_history with
    | Except.error _ => Except.error ()
    | Except.ok _ =>
      match e.groq with
      | Except.error _ => Except.error ()
      | Except.ok r =>
        match e.tts with
        | Except.error _ => Except.error ()
        | Except.ok a => Except.ok (WsOut.voiceResponse a t r)

/-- The `while True` receive loop of `voice_stream_websocket`: a failed
audio chunk yields the fixed apology error unit and the loop continues;
`end_conversation` breaks; other message types are skipped; the list
ending models transport disconnect. -/
def ws_handle : List WsIn → List WsOut
  | [] => []
  | WsIn.audioChunk e :: rest =>
    (match process_audio_chunk e with
     | Except.ok o => o
     | Except.error _ => WsOut.errorOut "Sorry, I didn't catch that. Could you repeat?") ::
      ws_handle rest
  | WsIn.endConversation :: _ => []
  | WsIn.otherMsg :: rest => ws_handle rest

/-! ## Non-realtime voice endpoint (`voice_interview`, lines 793–826) and
its text pipeline (`conduct_interview`, lines 690–789) -/

/-- `InterviewAIRequest` pydantic model. -/
structure InterviewAIRequest where
  idea : String
  persona : Persona
  conversation_history : List String
  user_message : String
deriving Repr, DecidableEq

/-- `InterviewAIResponse` pydantic model. -/
structure InterviewAIResponse where
  persona_response : String
  suggested_questions : List String
  conversation_status : String
deriving Repr, DecidableEq

/-- `create_contextual_response` inside `conduct_interview`: the local
fallback used whenever the Groq call or the JSON parse of its output
fails. -/
def create_contextual_response (req : InterviewAIRequest) : InterviewAIResponse :=
  let main_pain := req.persona.pain_points.headD "time management"
  let main_goal := req.persona.goals.headD "efficiency"
  if pyIn "biggest challenge" (pyLower req.user_message) then
    { persona_response :=
        "As a " ++ req.persona.role ++ ", my biggest challenge is " ++ main_pain ++
        ". When it comes to " ++ req.idea ++
        ", this is particularly frustrating because it directly impacts my " ++ main_goal ++ "."
      suggested_questions :=
        ["How would your solution specifically address this pain point?",
         "What kind of time savings could I expect?"]
      conversation_status := "ongoing" }
  else
    { persona_response :=
        "Let me share my perspective as a " ++ req.persona.role ++ ". Currently, " ++
        main_pain ++ " is a major challenge for me, and I'm always looking for solutions that could help with " ++
        main_goal ++ "."
      suggested_questions :=
        ["What inspired you to focus on this particular problem?",
         "How does your solution differ from existing alternatives?"]
      conversation_status := "ongoing" }

/-- External-call outcomes for the `voice_interview` endpoint.
`groqInterview` is the combined outcome of the Groq call *and* the JSON
parse of its output into an `InterviewAIResponse`; either failing makes
`conduct_interview` fall back to `create_contextual_response`. -/
structure InterviewEnv where
  whisper : Except Unit String
  groqInterview : Except Unit InterviewAIResponse
  tts : Except Unit String

/-- `conduct_interview`: the parsed Groq reply, or the contextual
fallback.  It never raises. -/
def conduct_interview (env : InterviewEnv) (req : InterviewAIRequest) : InterviewAIResponse :=
  match env.groqInterview with
  | Except.ok r => r
  | Except.error _ => create_contextual_response req

/-- `voice_interview`: transcribe (when audio is given), run
`conduct_interview`, then call TTS *outside* any inner handler — a TTS
failure (like a transcription failure) escapes to the outer `except`,
which re-raises as an HTTP 500, failing the whole unit. -/
def voice_interview (env : InterviewEnv) (req : VoiceInterviewRequest) :
    Except Nat VoiceInterviewResponse :=
  let transcription : Except Unit String :=
    if audio_present req.audio_file then env.whisper else Except.ok ""
  match transcription with
  | Except.error _ => Except.error 500
  | Except.ok t =>
    let tr := conduct_interview env
      { idea := "Voice interview"
        persona := req.persona
        conversation_history := req.conversation_history.map fun i => i.role ++ ": " ++ i.message
        user_message := t }
    match env.tts with
    | Except.error _ => Except.error 500
    | Except.ok a =>
      Except.ok
        { persona_response := tr.persona_response
          persona_audio_url := some ("data:audio/mp3;base64," ++ a)
          transcribed_user_message := some t
          suggested_questions := tr.suggested_questions
          conversation_status := tr.conversation_status }

/-! ## Fixtures -/

/-- Concrete persona for the spec's Sarah Chen scenario (§8), with a
concrete role so role-mention properties are checkable. -/
def sarahChen : Persona :=
  { name := "Sarah Chen"
    role := "Accountant"
    demographics := "34, Austin"
    pain_points := ["invoice tracking"]
    goals := ["faster billing"]
    personality_traits := ["direct"]
    communication_style := none }

/-- A completion text carrying a policy-refusal marker. -/
def refusal_text : String := "I cannot help with that request."

/-- Environment where Groq raises, OpenAI succeeds with a refusal, TTS
raises. -/
def envSecondTierRefusal : RealtimeEnv :=
  { whisper := Except.ok ""
    groq := Except.error ()
    openai := Except.ok refusal_text
    tts := Except.error () }

/-- A text-only request (no audio unit). -/
def reqTextOnly : VoiceInterviewRequest :=
  { persona := sarahChen, audio_file := none, conversation_history := [] }

/-- A request carrying an audio unit. -/
def reqWithAudio : VoiceInterviewRequest :=
  { persona := sarahChen, audio_file := some "BASE64", conversation_history := [] }

/-- Websocket chunk whose transcription succeeds (its generation and
synthesis outcomes are never consulted, since the handler's missing-key
subscript aborts every chunk first). -/
def okUnit : WsUnitEnv :=
  { whisper := Except.ok "hi there"
    groq := Except.ok "Hi. What is this about?"
    tts := Except.ok "AUDIO" }

/-- Websocket chunk whose transcription raises. -/
def failUnit : WsUnitEnv :=
  { whisper := Except.error ()
    groq := Except.ok "unused"
    tts := Except.ok "unused" }

/-- Realtime environment whose transcription raises. -/
def envWhisperFail : RealtimeEnv :=
  { whisper := Except.error ()
    groq := Except.ok "fine"
    openai := Except.ok "fine"
    tts := Except.ok "AUDIO" }

/-- Interview-endpoint environment whose Groq call and TTS call both
raise. -/
def envTtsFail : InterviewEnv :=
  { whisper := Except.ok "Tell me about your biggest challenge"
    groqInterview := Except.error ()
    tts := Except.error () }

/-- Realtime environment where generation succeeds but TTS raises. -/
def envTtsFailRealtime : RealtimeEnv :=
  { whisper := Except.ok "hello"
    groq := Except.ok "Hey, what is up?"
    openai := Except.error ()
    tts := Except.error () }

/-! ## Claim theorems -/

/-- Claim C1: the offline simulator's reply is claimed to be independent
of process restarts because template selection uses a stable hash.  The
source instead indexes templates with Python's builtin `hash`, whose
value depends on the per-process random seed; this theorem shows the
reply genuinely depends on that hash value, so two runs whose seeds hash
the utterance differently return different replies for identical
inputs. -/
theorem offline_reply_depends_on_hash :
    generate_offline_persona_response (fun _ => 0) "hello" sarahChen ≠
      generate_offline_persona_response (fun _ => 1) "hello" sarahChen := by
  decide

/-- Claim C2 counterexample: with Groq raising and OpenAI returning a
policy-refusal text, the realtime endpoint returns the refusal text
itself — not the offline simulator's output — so a policy-rejected
completion from the second tier reaches the caller. -/
theorem second_tier_refusal_returned :
    (voice_interview_realtime envSecondTierRefusal (fun _ => 0) reqTextOnly).persona_response =
        refusal_text ∧
      contains_policy_refusal refusal_text = true ∧
      refusal_text ≠
        generate_offline_persona_response (fun _ => 0)
          (resolve_transcript "" reqTextOnly.conversation_history) sarahChen := by
  exact ⟨rfl, by decide, by decide⟩

/-- Claim C2 (amended): the policy filter guards only the first tier.  If
the first provider fails and the second returns any text, that text is
returned to the caller verbatim, refusal marker or not. -/
theorem openai_reply_returned_unfiltered (env : RealtimeEnv) (pyHash : String → Nat)
    (req : VoiceInterviewRequest) (t : String)
    (ha : req.audio_file = none) (hg : env.groq = Except.error ())
    (ho : env.openai = Except.ok t) :
    (voice_interview_realtime env pyHash req).persona_response = t := by
  obtain ⟨p, af, hist⟩ := req
  obtain ⟨w, g, o, tt⟩ := env
  cases ha
  cases hg
  cases ho
  rfl

/-- Claim C2 witness: concrete second-tier refusal returned verbatim. -/
theorem openai_reply_returned_unfiltered_witness :
    (voice_interview_realtime envSecondTierRefusal (fun _ => 0) reqTextOnly).persona_response =
      refusal_text :=
  openai_reply_returned_unfiltered envSecondTierRefusal (fun _ => 0) reqTextOnly refusal_text
    rfl rfl rfl

/-- Claim C3: any utterance containing a phrase of the fixed leading list
is classified with the leading directive, whatever its word count and
whatever other phrases it contains. -/
theorem leading_phrase_forces_leading_style (u : String)
    (h : is_leading_question u = true) :
    response_style u =
      "The founder asked a leading question. Be skeptical and push back. Don't just agree." := by
  simp [response_style, h]

/-- Claim C3 witness: the spec's own example classifies as leading. -/
theorem leading_phrase_forces_leading_style_witness :
    response_style "Don't you think this is great?" =
      "The founder asked a leading question. Be skeptical and push back. Don't just agree." :=
  leading_phrase_forces_leading_style "Don't you think this is great?" (by decide)

/-- Claim C4: an utterance containing a good-behavioral phrase and no
leading phrase is never classified vague-short — the good-behavioral
check clears the vague flag — and receives the normal-engagement
directive (the directive the spec assigns to `good_behavioral`),
regardless of word count. -/
theorem good_behavioral_never_vague (u : String)
    (hg : (good_question_patterns.any fun p => pyIn p (pyLower u)) = true)
    (hl : is_leading_question u = false) :
    is_vague_question u = false ∧
      response_style u =
        "The founder asked a reasonable question. You can engage normally but still be naturally cautious." := by
  have hv : is_vague_question u = false := by simp [is_vague_question, hg]
  exact ⟨hv, by simp [response_style, hl, hv]⟩

/-- Claim C4 witness: the spec's six-word example is not vague-short. -/
theorem good_behavioral_never_vague_witness :
    is_vague_question "Tell me about your biggest challenge" = false ∧
      response_style "Tell me about your biggest challenge" =
        "The founder asked a reasonable question. You can engage normally but still be naturally cautious." :=
  good_behavioral_never_vague "Tell me about your biggest challenge" (by decide) (by decide)

/-- The simulator's branch conditions as an ordered (predicate, bucket)
table, in the order the source evaluates them.  Stated from the spec's
design note that the bucket logic is an ordered table evaluated in fixed
priority; used to compare the source's `if`/`elif` chain against a
first-match-wins table. -/
def bucket_checks : List ((String → Bool) × Bucket) :=
  [(fun u => sim_leading_phrases.any fun p => pyIn p (pyLower u), Bucket.leadingPushback),
   (fun u => (sim_vague_phrases.any fun p => pyIn p (pyLower u)) && decide (pySplitLen u < 8),
     Bucket.vagueClarify),
   (fun u => greeting_words.any fun w => pyIn w (pyLower u), Bucket.greeting),
   (fun u => pain_words.any fun w => pyIn w (pyLower u), Bucket.painOrProblem),
   (fun u => solution_words.any fun w => pyIn w (pyLower u), Bucket.solutionOrProduct),
   (fun u => pricing_words.any fun w => pyIn w (pyLower u), Bucket.pricing),
   (fun u => time_words.any fun w => pyIn w (pyLower u), Bucket.timeOrEfficiency),
   (fun u => competition_words.any fun w => pyIn w (pyLower u), Bucket.competition)]

/-- First-match-wins evaluation of an ordered (predicate, bucket) table,
defaulting to the default bucket. -/
def first_matching_bucket : List ((String → Bool) × Bucket) → String → Bucket
  | [], _ => Bucket.defaultBucket
  | (p, b) :: rest, u => if p u then b else first_matching_bucket rest u

/-- Claim C5 counterexample: an utterance in both the greeting set and
the leading set is answered from the leading-pushback bucket, not the
greeting bucket, because the source checks the leading phrases first. -/
theorem greeting_and_leading_hits_leading_bucket :
    offline_bucket "hi, don't you think this is great?" = Bucket.leadingPushback ∧
      (greeting_words.any fun w => pyIn w (pyLower "hi, don't you think this is great?")) = true := by
  exact ⟨by decide, by decide⟩

/-- Claim C5 (amended): the simulator classifies into exactly one bucket
by a first-match-wins pass over fixed keyword sets, but in the order
leading-pushback, vague-clarify, greeting, pain, solution, pricing,
time, competition, default; in particular any leading-phrase match wins
over every other set. -/
theorem offline_bucket_priority (u : String) :
    offline_bucket u = first_matching_bucket bucket_checks u ∧
      ((sim_leading_phrases.any fun p => pyIn p (pyLower u)) = true →
        offline_bucket u = Bucket.leadingPushback) := by
  constructor
  · rfl
  · intro h
    simp [offline_bucket, h]

/-- Claim C5 witness: a concrete leading-phrase utterance lands in the
leading-pushback bucket. -/
theorem offline_bucket_priority_witness :
    offline_bucket "surely you want this" = Bucket.leadingPushback :=
  (offline_bucket_priority "surely you want this").2 (by decide)

/-- Claim C6 counterexample: in the Sarah Chen scenario the simulated
reply contains the first pain point but not the persona's role (in any
casing): the pain-bucket templates interpolate only the pain point, and
the `role` variable the source computes is never used. -/
theorem sarah_reply_omits_role :
    generate_offline_persona_response (fun _ => 0) "What's your biggest challenge?" sarahChen =
        "Yeah, I deal with invoice tracking sometimes. Why?" ∧
      pyIn sarahChen.role
        (generate_offline_persona_response (fun _ => 0) "What's your biggest challenge?" sarahChen) =
        false ∧
      pyIn (pyLower sarahChen.role)
        (generate_offline_persona_response (fun _ => 0) "What's your biggest challenge?" sarahChen) =
        false := by
  exact ⟨by decide, by decide, by decide⟩

/-- Claim C6 (amended): for the Sarah Chen persona and the utterance
"What's your biggest challenge?", the simulator selects the
pain-or-problem bucket and the reply contains "invoice tracking",
whatever value the (seed-dependent) hash takes; the reply does not
mention the persona's role. -/
theorem sarah_scenario_pain_bucket (pyHash : String → Nat) :
    offline_bucket "What's your biggest challenge?" = Bucket.painOrProblem ∧
      pyIn "invoice tracking"
        (generate_offline_persona_response pyHash "What's your biggest challenge?" sarahChen) =
        true := by
  refine ⟨by decide, ?_⟩
  have hb : offline_bucket "What's your biggest challenge?" = Bucket.painOrProblem := by decide
  have hall : ∀ i, i < 4 →
      pyIn "invoice tracking"
        ((offline_templates Bucket.painOrProblem sarahChen).getD i "") = true := by decide
  have hlt : pyHash "What's your biggest challenge?" % 4 < 4 :=
    Nat.mod_lt _ (by norm_num)
  simp only [generate_offline_persona_response, hb]
  exact hall _ hlt

/-- Claim C6 witness: the scenario evaluated at a concrete hash value. -/
theorem sarah_scenario_pain_bucket_witness :
    offline_bucket "What's your biggest challenge?" = Bucket.painOrProblem ∧
      pyIn "invoice tracking"
        (generate_offline_persona_response (fun _ => 1) "What's your biggest challenge?" sarahChen) =
        true :=
  sarah_scenario_pain_bucket (fun _ => 1)

/-- Claim C7 counterexample: for a name matching neither name list, a
creative/artistic style yields exactly the same voice as the no-style
default — there is no dedicated style voice distinct from the default. -/
theorem creative_style_equals_default_voice :
    get_persona_voice "Zoe" "creative and artistic" = "nova" ∧
      get_persona_voice "Zoe" "" = "nova" := by
  exact ⟨by decide, by decide⟩

/-- Claim C7 (amended): the selector resolves female-name list, then
male-name list, then a single default: every name matching neither list
receives the default voice "nova" regardless of communication style —
the source has no creative/artistic rule. -/
theorem unmatched_name_always_default_voice (name style : String)
    (hf : (femaleNames.any fun n => pyIn n (pyLower name)) = false)
    (hm : (maleNames.any fun n => pyIn n (pyLower name)) = false) :
    get_persona_voice name style = "nova" := by
  simp [get_persona_voice, hf, hm]

/-- Claim C7 witness: a concrete unmatched name with artistic style gets
the default voice. -/
theorem unmatched_name_always_default_voice_witness :
    get_persona_voice "Taylor" "artistic" = "nova" :=
  unmatched_name_always_default_voice "Taylor" "artistic" (by decide) (by decide)

/-- Claim C8: a transcription failure is unit-scoped.  In the websocket
session loop, a chunk whose transcription raises yields exactly one
apology error unit after any end-signal-free prefix, and every later
unit is processed exactly as it would have been; the loop is terminated
only by the end signal or disconnect, never by the failure.  In the
realtime endpoint, when a truthy audio unit's transcription fails the
endpoint returns the apology unit with `conversation_status` still
"ongoing". -/
theorem transcription_failure_unit_scoped
    (us1 us2 : List WsIn) (e : WsUnitEnv) (env : RealtimeEnv) (pyHash : String → Nat)
    (req : VoiceInterviewRequest)
    (hend : WsIn.endConversation ∉ us1) (hfail : e.whisper = Except.error ())
    (haudio : audio_present req.audio_file = true) (hw : env.whisper = Except.error ()) :
    ws_handle (us1 ++ WsIn.audioChunk e :: us2) =
        ws_handle us1 ++
          WsOut.errorOut "Sorry, I didn't catch that. Could you repeat?" :: ws_handle us2 ∧
      (voice_interview_realtime env pyHash req).conversation_status = "ongoing" ∧
      (voice_interview_realtime env pyHash req).persona_response =
        "Sorry, I couldn't understand your audio. Could you try speaking again or check your microphone?" := by
  have key : ∀ us : List WsIn, WsIn.endConversation ∉ us →
      ws_handle (us ++ WsIn.audioChunk e :: us2) =
        ws_handle us ++
          WsOut.errorOut "Sorry, I didn't catch that. Could you repeat?" :: ws_handle us2 := by
    intro us
    induction us with
    | nil =>
      intro _
      simp [ws_handle, process_audio_chunk, hfail]
    | cons m rest ih =>
      intro hnd
      have hnd' : WsIn.endConversation ∉ rest := fun hmem => hnd (List.mem_cons_of_mem _ hmem)
      cases m with
      | audioChunk e2 => simpa [ws_handle] using ih hnd'
      | endConversation => exact absurd (List.mem_cons_self _ _) hnd
      | otherMsg => simpa [ws_handle] using ih hnd'
  refine ⟨key us1 hend, ?_, ?_⟩
  · obtain ⟨p, af, hist⟩ := req
    obtain ⟨w, g, o, tt⟩ := env
    cases hw
    simp [voice_interview_realtime, haudio]
  · obtain ⟨p, af, hist⟩ := req
    obtain ⟨w, g, o, tt⟩ := env
    cases hw
    simp [voice_interview_realtime, haudio]

/-- Claim C8 witness: in a five-unit session whose third unit fails
transcription, units four and five are processed normally and the
realtime endpoint reports the session as ongoing. -/
theorem transcription_failure_unit_scoped_witness :
    ws_handle [WsIn.audioChunk okUnit, WsIn.audioChunk okUnit, WsIn.audioChunk failUnit,
        WsIn.audioChunk okUnit, WsIn.audioChunk okUnit] =
        ws_handle [WsIn.audioChunk okUnit, WsIn.audioChunk okUnit] ++
          WsOut.errorOut "Sorry, I didn't catch that. Could you repeat?" ::
            ws_handle [WsIn.audioChunk okUnit, WsIn.audioChunk okUnit] ∧
      (voice_interview_realtime envWhisperFail (fun _ => 0) reqWithAudio).conversation_status =
        "ongoing" ∧
      (voice_interview_realtime envWhisperFail (fun _ => 0) reqWithAudio).persona_response =
        "Sorry, I couldn't understand your audio. Could you try speaking again or check your microphone?" :=
  transcription_failure_unit_scoped
    [WsIn.audioChunk okUnit, WsIn.audioChunk okUnit]
    [WsIn.audioChunk okUnit, WsIn.audioChunk okUnit]
    failUnit envWhisperFail (fun _ => 0) reqWithAudio
    (by decide) rfl rfl rfl

/-- Claim C9 counterexample: the `voice_interview` endpoint does not
degrade on synthesis failure.  Its `conduct_interview` stage produced a
non-empty reply text, yet a TTS failure aborts the unit with an HTTP 500
and no text reply is returned. -/
theorem voice_interview_fails_unit_on_tts_error :
    voice_interview envTtsFail reqWithAudio = Except.error 500 ∧
      (conduct_interview envTtsFail
          { idea := "Voice interview"
            persona := reqWithAudio.persona
            conversation_history := []
            user_message := "Tell me about your biggest challenge" }).persona_response ≠ "" := by
  exact ⟨rfl, by decide⟩

/-- Claim C9 (amended): in the realtime endpoint a synthesis failure
degrades the unit to a text-only reply: the audio field is absent, the
text reply is exactly the one a successful synthesis would have carried,
and the unit still succeeds with status "ongoing".  The non-realtime
`voice_interview` endpoint does not have this property. -/
theorem realtime_synthesis_failure_degrades (env : RealtimeEnv) (pyHash : String → Nat)
    (req : VoiceInterviewRequest) (a : String)
    (htts : env.tts = Except.error ()) :
    (voice_interview_realtime env pyHash req).persona_audio_url = none ∧
      (voice_interview_realtime env pyHash req).persona_response =
        (voice_interview_realtime { env with tts := Except.ok a } pyHash req).persona_response ∧
      (voice_interview_realtime env pyHash req).conversation_status = "ongoing" := by
  obtain ⟨p, af, hist⟩ := req
  obtain ⟨w, g, o, t⟩ := env
  cases htts
  cases af with
  | none => exact ⟨rfl, rfl, rfl⟩
  | some a =>
    cases hb : (a == "") with
    | true =>
      refine ⟨?_, ?_, ?_⟩ <;>
        simp [voice_interview_realtime, audio_present, chain_reply, hb]
    | false =>
      cases w <;> refine ⟨?_, ?_, ?_⟩ <;>
        simp [voice_interview_realtime, audio_present, chain_reply, hb]

/-- Claim C9 witness: concrete TTS failure after successful generation
yields a text-only unit. -/
theorem realtime_synthesis_failure_degrades_witness :
    (voice_interview_realtime envTtsFailRealtime (fun _ => 0) reqWithAudio).persona_audio_url =
        none ∧
      (voice_interview_realtime envTtsFailRealtime (fun _ => 0) reqWithAudio).persona_response =
        (voice_interview_realtime { envTtsFailRealtime with tts := Except.ok "AUDIO" } (fun _ => 0)
            reqWithAudio).persona_response ∧
      (voice_interview_realtime envTtsFailRealtime (fun _ => 0) reqWithAudio).conversation_status =
        "ongoing" :=
  realtime_synthesis_failure_degrades envTtsFailRealtime (fun _ => 0) reqWithAudio "AUDIO" rfl

/-- Claim C10: every exit of the realtime endpoint — successful
generation, transcription failure, any combination of provider and
synthesis outcomes — carries `conversation_status = "ongoing"`; the
endpoint never reports completion. -/
theorem realtime_status_always_ongoing (env : RealtimeEnv) (pyHash : String → Nat)
    (req : VoiceInterviewRequest) :
    (voice_interview_realtime env pyHash req).conversation_status = "ongoing" := by
  obtain ⟨p, af, hist⟩ := req
  obtain ⟨w, g, o, t⟩ := env
  cases af with
  | none => rfl
  | some a =>
    cases hb : (a == "") with
    | true => simp [voice_interview_realtime, audio_present, hb]
    | false => cases w <;> simp [voice_interview_realtime, audio_present, hb]

/-- Claim C10 witness: a concrete run with failing transcription still
reports "ongoing". -/
theorem realtime_status_always_ongoing_witness :
    (voice_interview_realtime envWhisperFail (fun _ => 0) reqWithAudio).conversation_status =
      "ongoing" :=
  realtime_status_always_ongoing envWhisperFail (fun _ => 0) reqWithAudio

end Step1
